import Mathlib

/-!
Shallow embedding of the CED-QC declaration-crawler script (`main.py`):
the name sanitizer, the year regex, the per-person download/sync loop,
the analysis-file bookkeeping, the JSON-extraction fallback and the
orchestrator credential checks, together with theorems settling the
frozen claims about this program.

External effects (HTTP fetches, the filesystem, `json.loads`, the AI
client) are modelled as explicit parameters: the filesystem is the list
of paths present, a fetch outcome is an oracle `String → Bool`, and
`json.loads` is an oracle returning a parsed object or failing.
-/

namespace CedQc

/-- Python `\s` whitespace class (ASCII): space, tab, newline, carriage
return, vertical tab, form feed. -/
def isPySpace (c : Char) : Bool :=
  c = ' ' || c = '\t' || c = '\n' || c = '\r' || c = Char.ofNat 11 || c = Char.ofNat 12

/-- The `\x7b` character. -/
def lbrace : Char := Char.ofNat 123

/-- The `\x7d` character. -/
def rbrace : Char := Char.ofNat 125

/-- Does `pat` occur in `s` starting at index `i`? -/
def occursAt (pat s : List Char) (i : Nat) : Bool :=
  pat.isPrefixOf (s.drop i)

/-- Does `pat` occur anywhere in `s`? -/
def containsSub (s pat : List Char) : Bool :=
  (List.range (s.length + 1)).any (occursAt pat s)

/-- Fueled worker for Python `str.replace`: scan left to right, replacing
non-overlapping occurrences of `old` by `new`.  The fuel is the length of
the scanned list, which bounds the number of steps when `old` is
nonempty (as in every use in `main.py`). -/
def replaceFuel (old new : List Char) : Nat → List Char → List Char
  | _, [] => []
  | 0, s => s
  | fuel + 1, c :: rest =>
    if old.isPrefixOf (c :: rest) then
      new ++ replaceFuel old new fuel ((c :: rest).drop old.length)
    else
      c :: replaceFuel old new fuel rest

/-- Python `s.replace(old, new)` for nonempty `old`. -/
def pythonReplace (s old new : String) : String :=
  String.mk (replaceFuel old.toList new.toList s.toList.length s.toList)

/-- `os.path.join` on POSIX with relative second component. -/
def pathJoin (a b : String) : String := a ++ "/" ++ b

/-- `re.sub(r'[()]', '', name)` from `sanitize_name` (main.py:60). -/
def removeParens (s : List Char) : List Char :=
  s.filter (fun c => !(c = '(' || c = ')'))

/-- `re.sub(r'\s+', ' ', name)` from `sanitize_name` (main.py:62): each
maximal run of whitespace becomes a single space.  The flag records
whether the previous character was part of a whitespace run. -/
def collapseWsAux : Bool → List Char → List Char
  | _, [] => []
  | prev, c :: rest =>
    if isPySpace c then
      (if prev then [] else [' ']) ++ collapseWsAux true rest
    else
      c :: collapseWsAux false rest

/-- `sanitize_name` (main.py:57-65): remove parentheses, collapse
whitespace runs to one space, then replace each space by an
underscore (`name.replace(' ', '_')`). -/
def sanitize_name (name : String) : String :=
  String.mk ((collapseWsAux false (removeParens name.toList)).map
    (fun c => if c = ' ' then '_' else c))

/-- One attempt of the regex `\d{4}(?:-\d{4})?` at index `i`
(main.py:351): four digits, then greedily a hyphen and four more
digits. -/
def yearMatchAt (s : List Char) (i : Nat) : Option (List Char) :=
  let t := s.drop i
  if (t.take 4).length = 4 && (t.take 4).all Char.isDigit then
    if (t.drop 4).head? = some '-'
        && ((t.drop 5).take 4).length = 4 && ((t.drop 5).take 4).all Char.isDigit then
      some (t.take 9)
    else
      some (t.take 4)
  else
    none

/-- `re.search(r'\d{4}(?:-\d{4})?', text)`: leftmost match. -/
def yearSearch (s : List Char) : Option (List Char) :=
  (List.range s.length).findSome? (yearMatchAt s)

/-- `year_match.group(0) if year_match else 'unknown'` (main.py:352). -/
def extractYear (text : String) : String :=
  match yearSearch text.toList with
  | some y => String.mk y
  | none => "unknown"

/-- One anchor element inside a person's sub-list: its `href`, its
optional `data-id-document` attribute, and its display text
(main.py:340-350). -/
structure Link where
  href : Option String
  dataIdDocument : Option String
  text : String
  deriving DecidableEq

/-- `link.get('data-id-document', 'unknown')` (main.py:349). -/
def doc_id (l : Link) : String := l.dataIdDocument.getD "unknown"

/-- `f"document_{doc_id}_{year}.pdf"` (main.py:355). -/
def fileNameOf (l : Link) : String :=
  "document_" ++ doc_id l ++ "_" ++ extractYear l.text ++ ".pdf"

/-- Add a path to the filesystem model. -/
def fsInsert (fs : List String) (p : String) : List String :=
  if fs.contains p then fs else p :: fs

/-- Result of `download_pdf`: the returned boolean, the filesystem after
the call, and how many network fetches (`requests.get`) were made. -/
structure DownloadResult where
  ok : Bool
  fs : List String
  fetchCalls : Nat
  deriving DecidableEq

/-- `download_pdf(url, filepath, skip_existing)` (main.py:67-82): with
`skip_existing` set and the file present, return immediately without a
fetch; otherwise fetch, and on success write the file; a failed fetch
(caught `RequestException`) returns `False`. -/
def download_pdf (fetchOk : String → Bool) (url filepath : String)
    (skip_existing : Bool) (fs : List String) : DownloadResult :=
  if skip_existing && fs.contains filepath then
    ⟨true, fs, 0⟩
  else if fetchOk url then
    ⟨true, fsInsert fs filepath, 1⟩
  else
    ⟨false, fs, 1⟩

/-- Mutable state threaded through one person's link loop
(main.py:339-381): the `downloaded_files` list, the filesystem, and the
running count of network fetches. -/
structure DLState where
  downloaded : List String
  fs : List String
  fetchCalls : Nat
  deriving DecidableEq

/-- What happened while processing one link: fetches made, whether the
`time.sleep(random.uniform(1, 3))` at main.py:381 ran afterwards, and
whether the manifest-based skip at main.py:362 fired. -/
structure LinkTrace where
  fetchCount : Nat
  slept : Bool
  manifestSkip : Bool
  deriving DecidableEq

/-- Body of `for link in pdf_links` (main.py:339-381).  A link without
an href is skipped with no fetch and no sleep.  Otherwise, if
`filename in existing_files and args.skip_existing`, the file is
recorded and the loop continues before the sleep.  Otherwise
`download_pdf` runs and the sleep always follows it, whether the
download fetched, skipped an existing file, or failed. -/
def processLink (skip_existing : Bool) (fetchOk : String → Bool)
    (person_dir : String) (existing_files : List String)
    (st : DLState) (link : Link) : DLState × LinkTrace :=
  match link.href with
  | none => (st, ⟨0, false, false⟩)
  | some url =>
    let filename := fileNameOf link
    let file_path := pathJoin person_dir filename
    if existing_files.contains filename && skip_existing then
      ({ st with downloaded := st.downloaded ++ [filename] }, ⟨0, false, true⟩)
    else
      let r := download_pdf fetchOk url file_path skip_existing st.fs
      ({ downloaded := if r.ok then st.downloaded ++ [filename] else st.downloaded,
         fs := r.fs,
         fetchCalls := st.fetchCalls + r.fetchCalls },
       ⟨r.fetchCalls, true, false⟩)

/-- The whole link loop, also recording the per-link traces in order. -/
def runLinks (skip_existing : Bool) (fetchOk : String → Bool)
    (person_dir : String) (existing_files : List String) :
    DLState → List Link → DLState × List LinkTrace
  | st, [] => (st, [])
  | st, l :: rest =>
    let p := processLink skip_existing fetchOk person_dir existing_files st l
    let q := runLinks skip_existing fetchOk person_dir existing_files p.1 rest
    (q.1, p.2 :: q.2)

/-- `pdf_links = pdf_links[:1]` when `--latest-only` (main.py:320-321). -/
def effectiveLinks (latest_only : Bool) (links : List Link) : List Link :=
  if latest_only then links.take 1 else links

/-- `existing_files` as loaded at main.py:326-334: populated from the
person's JSON manifest only when `skip_existing` is set and the file
exists and parses; otherwise it stays empty.  `manifest = none` models
an absent or unparseable manifest file. -/
def loadExistingFiles (skip_existing : Bool)
    (manifest : Option (List String)) : List String :=
  if skip_existing then manifest.getD [] else []

/-- Outcome of one person's download pass: the `documents` list written
to the person's JSON manifest (main.py:387-392), the filesystem after
the pass, the number of network fetches, and the per-link traces. -/
structure PersonOutput where
  newManifest : List String
  fs : List String
  fetchCalls : Nat
  traces : List LinkTrace
  deriving DecidableEq

/-- One person's download pass (main.py:318-392): truncate the links
when `latest_only`, load `existing_files` from the manifest when
`skip_existing`, run the link loop starting from an empty
`downloaded_files`, and write the manifest from the result. -/
def processPerson (latest_only skip_existing : Bool)
    (fetchOk : String → Bool) (person_dir : String) (links : List Link)
    (manifest : Option (List String)) (fs0 : List String) : PersonOutput :=
  let links' := effectiveLinks latest_only links
  let existing_files := loadExistingFiles skip_existing manifest
  let r := runLinks skip_existing fetchOk person_dir existing_files ⟨[], fs0, 0⟩ links'
  ⟨r.1.downloaded, r.1.fs, r.1.fetchCalls, r.2⟩

/-- Where, relative to the assignment `original_name = ...` at
main.py:297, an exception escapes during one person's iteration of the
try block at main.py:281-396. -/
inductive RaisePoint where
  | beforeName
  | afterName
  deriving DecidableEq

/-- One `<li>` person item as seen by the loop at main.py:280: whether
its processing raises (and at which point), and the name the extraction
at main.py:284-297 would produce. -/
structure PersonItem where
  raises : Option RaisePoint
  name : String
  deriving DecidableEq

/-- The `for person_li in person_lis` loop of `main` (main.py:280-401).
The first argument tracks the Python local `original_name`, which is
assigned only at main.py:297 and persists across iterations; the
handler at main.py:398-399 logs an f-string that evaluates
`original_name`, so when the local has never been assigned the handler
itself raises `NameError`, which nothing catches and which ends the
loop.  Returns how many person items the loop got through (normally or
via the handler) and whether the loop was aborted. -/
def personLoop : Option String → List PersonItem → Nat × Bool
  | _, [] => (0, false)
  | boundName, item :: rest =>
    match item.raises with
    | some RaisePoint.beforeName =>
      match boundName with
      | none => (0, true)
      | some _ =>
        let r := personLoop boundName rest
        (r.1 + 1, r.2)
    | some RaisePoint.afterName =>
      let r := personLoop (some item.name) rest
      (r.1 + 1, r.2)
    | none =>
      let r := personLoop (some item.name) rest
      (r.1 + 1, r.2)

/-- `pdf_path.replace('.pdf', '_analysis.txt')` (main.py:171, 608). -/
def analysisTxtPath (pdf_path : String) : String :=
  pythonReplace pdf_path ".pdf" "_analysis.txt"

/-- `pdf_path.replace('.pdf', '_analysis.json')` (main.py:172, 619). -/
def analysisJsonPath (pdf_path : String) : String :=
  pythonReplace pdf_path ".pdf" "_analysis.json"

/-- `analysis_files_exist(pdf_path, require_both)` (main.py:160-177). -/
def analysis_files_exist (fs : List String) (pdf_path : String)
    (require_both : Bool) : Bool :=
  if require_both then
    fs.contains (analysisTxtPath pdf_path) && fs.contains (analysisJsonPath pdf_path)
  else
    fs.contains (analysisTxtPath pdf_path) || fs.contains (analysisJsonPath pdf_path)

/-- `combined_file_path` built by `analyze_multiple_pdfs_together`
(main.py:844-849): the parent directory of the first PDF joined with
`f"{dir_name}_combined_analysis.pdf"`. -/
def combined_file_path (base_dir dir_name : String) : String :=
  pathJoin base_dir (dir_name ++ "_combined_analysis.pdf")

/-- The text path `save_analysis_files` derives for the combined
analysis (main.py:608 applied to main.py:849). -/
def combinedWrittenTxtPath (base_dir dir_name : String) : String :=
  analysisTxtPath (combined_file_path base_dir dir_name)

/-- The JSON path `save_analysis_files` derives for the combined
analysis (main.py:619 applied to main.py:849). -/
def combinedWrittenJsonPath (base_dir dir_name : String) : String :=
  analysisJsonPath (combined_file_path base_dir dir_name)

/-- `combined_analysis_path` checked by `main` before the combined
call (main.py:426). -/
def combinedCheckTxtPath (person_dir person : String) : String :=
  pathJoin person_dir (person ++ "_combined_analysis.txt")

/-- `combined_analysis_json_path` checked by `main` (main.py:427). -/
def combinedCheckJsonPath (person_dir person : String) : String :=
  pathJoin person_dir (person ++ "_combined_analysis.json")

/-- `skip_combined_analysis` as computed at main.py:424-430: true when
`--skip-analyzed` is set and one of the two checked paths exists. -/
def skip_combined_analysis (skip_analyzed : Bool) (fs : List String)
    (person_dir person : String) : Bool :=
  skip_analyzed &&
    (fs.contains (combinedCheckTxtPath person_dir person) ||
     fs.contains (combinedCheckJsonPath person_dir person))

/-- The filtering step of `analyze_pdfs_for_person` (main.py:677-690):
with `skip_analyzed`, keep only the PDFs with no analysis files. -/
def pdfsToAnalyze (person_dir : String) (pdf_files : List String)
    (skip_analyzed : Bool) (fs : List String) : List String :=
  if skip_analyzed then
    pdf_files.filter (fun f => !(analysis_files_exist fs (pathJoin person_dir f) false))
  else
    pdf_files

/-- The per-PDF loop of `analyze_pdfs_for_person` (main.py:696-706):
build the results mapping and the list of PDF paths for which
`save_analysis_files` is invoked. -/
def analyzeLoop (person_dir : String) (analyze : String → String)
    (save_text_files : Bool) : List String → List (String × String) × List String
  | [] => ([], [])
  | f :: rest =>
    let pdf_path := pathJoin person_dir f
    let analysis_result := analyze pdf_path
    let r := analyzeLoop person_dir analyze save_text_files rest
    ((f, analysis_result) :: r.1,
     (if save_text_files && !(analysis_result.startsWith "Error")
          && !(analysis_result.startsWith "Analysis failed") then
        [pdf_path]
      else []) ++ r.2)

/-- `analyze_pdfs_for_person(person_dir, ...)` (main.py:655-706), with
the AI call abstracted as the oracle `analyze` from PDF path to result
string and the filesystem as the list of existing paths.  Returns the
`results` mapping (filename to analysis string, in order) and the PDF
paths whose analysis files were saved. -/
def analyze_pdfs_for_person (person_dir : String) (pdf_files : List String)
    (analyze : String → String) (save_text_files skip_analyzed : Bool)
    (fs : List String) : List (String × String) × List String :=
  analyzeLoop person_dir analyze save_text_files
    (pdfsToAnalyze person_dir pdf_files skip_analyzed fs)

/-- Entry shape of the `income` list in `get_json_template`
(main.py:100-106). -/
structure IncomeEntry where
  source : String
  type : String
  amount : String
  deriving DecidableEq

/-- Entry shape of the `assets` list (main.py:107-112). -/
structure AssetEntry where
  type : String
  value : String
  deriving DecidableEq

/-- Entry shape of the `liabilities` list (main.py:113-118). -/
structure LiabilityEntry where
  type : String
  amount : String
  deriving DecidableEq

/-- Entry shape of the `other_interests` list (main.py:119-125). -/
structure OtherInterestEntry where
  type : String
  description : String
  value : String
  deriving DecidableEq

/-- Entry shape of the inner `interests` list (main.py:129-135). -/
structure FamilyInterestItem where
  name : String
  description : String
  deriving DecidableEq

/-- Entry shape of the `family_interests` list (main.py:126-136). -/
structure FamilyInterestEntry where
  member : String
  interests : List FamilyInterestItem
  deriving DecidableEq

/-- The declaration dictionary built by `get_json_template`
(main.py:91-137), plus the dynamically added `full_text` key
(`none` means the key is absent, as in the template itself). -/
structure FinDecl where
  member : String
  income : List IncomeEntry
  assets : List AssetEntry
  liabilities : List LiabilityEntry
  other_interests : List OtherInterestEntry
  family_interests : List FamilyInterestEntry
  full_text : Option String
  deriving DecidableEq

/-- `get_json_template()` (main.py:91-137). -/
def get_json_template : FinDecl where
  member := ""
  income := [⟨"", "", ""⟩]
  assets := [⟨"", ""⟩]
  liabilities := [⟨"", ""⟩]
  other_interests := [⟨"", "", ""⟩]
  family_interests := [⟨"", [⟨"", ""⟩]⟩]
  full_text := none

/-- Drop trailing Python whitespace. -/
def dropTrailingWs (s : List Char) : List Char :=
  (s.reverse.dropWhile isPySpace).reverse

/-- First index at which `pat` occurs in `s`. -/
def firstIndexOf? (s pat : List Char) : Option Nat :=
  (List.range (s.length + 1)).find? (occursAt pat s)

/-- Last index of character `c` in `s`. -/
def lastIndexOf? (s : List Char) (c : Char) : Option Nat :=
  (List.range s.length).foldl
    (fun acc i => if s.get? i = some c then some i else acc) none

/-- Does the fenced-block regex `(triple-backtick)json\s*([\s\S]*?)\s*`
followed by a closing triple backtick (main.py:558) match anywhere in
the text?  A match needs an occurrence of the 7-character opener and a
later closing triple backtick. -/
def hasFencedJson (s : List Char) : Bool :=
  (List.range (s.length + 1)).any
    (fun i => occursAt "```json".toList s i && containsSub (s.drop (i + 7)) "```".toList)

/-- Group 1 of the first fenced-block match (`json_matches[0]`,
main.py:559-562): after the first viable opener, strip leading
whitespace, and (lazy capture) take up to the first closing fence,
with the trailing whitespace absorbed by the `\s*` before it. -/
def fencedCapture (text : String) : String :=
  let s := text.toList
  match (List.range (s.length + 1)).find?
      (fun i => occursAt "```json".toList s i && containsSub (s.drop (i + 7)) "```".toList) with
  | none => ""
  | some i =>
    let stripped := (s.drop (i + 7)).dropWhile isPySpace
    match firstIndexOf? stripped "```".toList with
    | none => ""
    | some m => String.mk (dropTrailingWs (stripped.take m))

/-- Does the inline-object regex `\x7b\s*"[^"]+"\s*:[\s\S]*\x7d`
(main.py:565) match starting at index `i`?  An opening brace, optional
whitespace, a nonempty double-quoted key, optional whitespace, a colon,
and some closing brace later. -/
def objMatchAt (s : List Char) (i : Nat) : Bool :=
  match s.drop i with
  | [] => false
  | c :: rest =>
    c = lbrace &&
    (match rest.dropWhile isPySpace with
     | [] => false
     | q :: r2 =>
       q = '"' &&
       (let key := r2.takeWhile (fun ch => !(ch = '"'))
        !key.isEmpty &&
        (match r2.drop key.length with
         | [] => false
         | _ :: r3 =>
           match r3.dropWhile isPySpace with
           | [] => false
           | colon :: r5 => colon = ':' && r5.contains rbrace)))

/-- Does the inline-object regex match anywhere in the text? -/
def hasInlineObj (s : List Char) : Bool :=
  (List.range s.length).any (objMatchAt s)

/-- The first inline-object match (`obj_matches[0]`, main.py:566-569):
from the first matching brace through the last closing brace (the
trailing `[\s\S]*` is greedy). -/
def objCapture (text : String) : String :=
  let s := text.toList
  match (List.range s.length).find? (objMatchAt s) with
  | none => ""
  | some i =>
    match lastIndexOf? s rbrace with
    | none => ""
    | some j => String.mk ((s.drop i).take (j + 1 - i))

/-- The part of the member-name regex `"?[Mm]ember"?\s*:\s*"([^"]+)"`
(main.py:575) after the literal `[Mm]ember`: an optional closing quote,
optional whitespace, a colon, optional whitespace, and a nonempty
double-quoted capture. -/
def memberAfterKey (rest : List Char) : Option (List Char) :=
  let rest1 := match rest with
    | '"' :: r => r
    | r => r
  match rest1.dropWhile isPySpace with
  | ':' :: r3 =>
    (match r3.dropWhile isPySpace with
     | '"' :: r5 =>
       let cap := r5.takeWhile (fun c => !(c = '"'))
       if !cap.isEmpty && ((r5.drop cap.length).head? = some '"') then some cap
       else none
     | _ => none)
  | _ => none

/-- The member-name regex without its optional leading quote. -/
def matchMemberCore (t : List Char) : Option (List Char) :=
  match t with
  | c :: rest =>
    if (c = 'M' || c = 'm') && "ember".toList.isPrefixOf rest then
      memberAfterKey (rest.drop 5)
    else
      none
  | [] => none

/-- One attempt of the member-name regex at index `i`: if the text has a
quote here, the `"?` must consume it (a quote cannot start `[Mm]ember`
nor the following `\s*:`). -/
def memberMatchAt (s : List Char) (i : Nat) : Option (List Char) :=
  match s.drop i with
  | '"' :: rest => matchMemberCore rest
  | t => matchMemberCore t

/-- `re.search` with the member-name regex (main.py:575-576): capture of
the leftmost match. -/
def memberSearch (s : List Char) : Option (List Char) :=
  (List.range s.length).findSome? (memberMatchAt s)

/-- `extract_json_from_text(text)` (main.py:545-588).  `json.loads` is
an external oracle (`loads`), returning the parsed object or `none` for
a `JSONDecodeError`; a decode error is caught at main.py:584-588 and
falls back to the template with `full_text` set.  When neither regex
matches, the template is returned with `member` filled from the
member-name pattern when it matches and `full_text` set to the whole
input.  Every branch returns a value; the function never raises. -/
def extract_json_from_text (loads : String → Option FinDecl)
    (text : String) : Option FinDecl :=
  if hasFencedJson text.toList then
    match loads (fencedCapture text) with
    | some j => some j
    | none => some { get_json_template with full_text := some text }
  else if hasInlineObj text.toList then
    match loads (objCapture text) with
    | some j => some j
    | none => some { get_json_template with full_text := some text }
  else
    let t1 := match memberSearch text.toList with
      | some cap => { get_json_template with member := String.mk cap }
      | none => get_json_template
    some { t1 with full_text := some text }

/-- The member field the no-match fallback ends up with: the captured
name when the member-name pattern matches, else the template's empty
string. -/
def memberFallback (text : String) : String :=
  match memberSearch text.toList with
  | some cap => String.mk cap
  | none => ""

/-- The error string returned when `GOOGLE_API_KEY` is unset
(main.py:474, 783). -/
def apiKeyMissingMsg : String :=
  "GOOGLE_API_KEY environment variable not found. Please set it and try again."

/-- The `ImportError` message (main.py:538, 864). -/
def missingPackageMsg (e : String) : String :=
  "Missing required package: " ++ e ++ ". Please install google-genai package."

/-- The missing-file message (main.py:485, 806). -/
def pdfNotFoundMsg (p : String) : String := "PDF file not found: " ++ p

/-- The `generate_content` failure message (main.py:534, 860). -/
def geminiErrorMsg (e : String) : String :=
  "Error generating content with Gemini: " ++ e

/-- The empty-input message of the multi-document path (main.py:788). -/
def noPdfPathsMsg : String := "No PDF paths provided for analysis."

/-- The catch-all message of the outer handler (main.py:543, 869). -/
def analysisFailedMsg (e : String) : String := "Analysis failed: " ++ e

/-- Python truthiness of `os.environ.get("GOOGLE_API_KEY")`
(main.py:473, 782): falsy when the variable is absent or empty. -/
def envKeyFalsy : Option String → Bool
  | none => true
  | some s => s.isEmpty

/-- `analyze_pdf_with_gemini(pdf_path, prompt)` (main.py:456-543),
with the external world as parameters: whether importing
`google.genai` succeeds (and the `ImportError` text when not), the value of
`GOOGLE_API_KEY` in the environment, whether the PDF file exists, any
other exception raised inside the outer try (e.g. while reading the
file), and the AI call's outcome.  Every code path returns a string;
nothing escapes the try/except ladder. -/
def analyze_pdf_with_gemini (importOk : Bool) (importErr : String)
    (apiKey : Option String) (pdf_path : String) (fileExists : Bool)
    (otherExc : Option String) (aiResponse : Except String String) : String :=
  if !importOk then missingPackageMsg importErr
  else if envKeyFalsy apiKey then apiKeyMissingMsg
  else if !fileExists then pdfNotFoundMsg pdf_path
  else
    match otherExc with
    | some e => analysisFailedMsg e
    | none =>
      match aiResponse with
      | Except.ok r => r
      | Except.error e => geminiErrorMsg e

/-- `analyze_multiple_pdfs_together(pdf_paths, prompt, save_text_file)`
(main.py:764-869), abstracted the same way: import check, credential
check, empty-input check, per-file existence check in list order (the
first missing file aborts the call), then the AI call. -/
def analyze_multiple_pdfs_together (importOk : Bool) (importErr : String)
    (apiKey : Option String) (pdf_paths : List String)
    (fileExists : String → Bool) (otherExc : Option String)
    (aiResponse : Except String String) : String :=
  if !importOk then missingPackageMsg importErr
  else if envKeyFalsy apiKey then apiKeyMissingMsg
  else if pdf_paths.isEmpty then noPdfPathsMsg
  else
    match pdf_paths.find? (fun p => !(fileExists p)) with
    | some p => pdfNotFoundMsg p
    | none =>
      match otherExc with
      | some e => analysisFailedMsg e
      | none =>
        match aiResponse with
        | Except.ok r => r
        | Except.error e => geminiErrorMsg e

/-- A sample anchor used for concrete instantiations: an href, a
`data-id-document` of `42`, and display text `2020`, so its derived
filename is `document_42_2020.pdf`. -/
def sampleLink : Link := ⟨some "http://x/a.pdf", some "42", "2020"⟩

/-- Claim C9: `sanitize_name` applied to `"Jean (Dupont)  Tremblay"`
returns `"Jean_Dupont_Tremblay"`: parentheses are removed, whitespace
runs collapse to one space, and spaces become underscores. -/
theorem c9_sanitize_name_example :
    sanitize_name "Jean (Dupont)  Tremblay" = "Jean_Dupont_Tremblay" := by
  decide

/-- Claim C1 (counterexample): with `skip_existing` set, a document
whose file already exists on disk but whose filename is not in the
manifest is skipped by `download_pdf` without a fetch, yet the loop
still sleeps after it — refuting the claim that file-already-present
skips bypass the throttling delay. -/
theorem c1_counterexample :
    (["p/document_42_2020.pdf"] : List String).contains
        (pathJoin "p" (fileNameOf sampleLink)) = true
    ∧ (processPerson false true (fun _ => true) "p" [sampleLink]
        (some []) ["p/document_42_2020.pdf"]).traces
        = [⟨0, true, false⟩]
    ∧ (processPerson false true (fun _ => true) "p" [sampleLink]
        (some []) ["p/document_42_2020.pdf"]).fetchCalls = 0 := by
  decide

/-- Claim C2 (counterexample): with `skip_existing` unset and an
unchanged listing, a person whose only document's re-download fails
with a network error gets a manifest written without that filename —
the manifest shrinks, refuting append-only regardless of
`skip_existing`. -/
theorem c2_counterexample :
    fileNameOf sampleLink = "document_42_2020.pdf"
    ∧ (processPerson false false (fun _ => false) "p" [sampleLink]
        (some ["document_42_2020.pdf"]) []).newManifest = []
    ∧ "document_42_2020.pdf" ∉
        (processPerson false false (fun _ => false) "p" [sampleLink]
          (some ["document_42_2020.pdf"]) []).newManifest := by
  decide

/-- Claim C5 (counterexample): if the only document's fetch fails on
the first run, the manifest and filesystem left behind do not record
it, so a second run with `skip_existing=true` fetches again — the
second run performs one fetch, not zero. -/
theorem c5_counterexample :
    (processPerson false true (fun _ => false) "p" [sampleLink]
        (some (processPerson false true (fun _ => false) "p" [sampleLink]
          none []).newManifest)
        (processPerson false true (fun _ => false) "p" [sampleLink]
          none []).fs).fetchCalls = 1 := by
  decide

/-- Claim C8 (counterexample): with `latest_only` set, a person whose
sub-list yields zero anchors keeps a truncated list of length 0, not
exactly 1 — `pdf_links[:1]` of an empty list is empty. -/
theorem c8_counterexample :
    effectiveLinks true ([] : List Link) = []
    ∧ (effectiveLinks true ([] : List Link)).length ≠ 1 := by
  decide

/-- Claim C4: the claim that a per-person exception is always caught
and the loop continues is contradicted by the code: the handler at
main.py:398 logs an f-string evaluating the local `original_name`,
which is unbound when the first person item raises before the
assignment at main.py:297, so the handler itself raises and the loop
aborts with the remaining items unprocessed; when a name was bound by
an earlier iteration, the same exception is caught and the loop
continues. -/
theorem c4_first_person_exception_aborts_loop :
    personLoop none
        [⟨some RaisePoint.beforeName, "Alice"⟩, ⟨none, "Bob"⟩] = (0, true)
    ∧ personLoop (some "Prev")
        [⟨some RaisePoint.beforeName, "Alice"⟩, ⟨none, "Bob"⟩] = (2, false) := by
  decide

/-- Claim C3: the combined-analysis writer and the `skip_analyzed`
check disagree.  `analyze_multiple_pdfs_together` hands
`save_analysis_files` a path ending in `_combined_analysis.pdf`, whose
`.pdf` → `_analysis.txt` / `_analysis.json` substitution yields
`<person>_combined_analysis_analysis.txt` / `.json`, while `main`
checks `<person>_combined_analysis.txt` / `.json`; the paths differ,
so after a run that wrote the combined files, `skip_combined_analysis`
still evaluates to false and the AI call is repeated. -/
theorem c3_combined_paths_mismatch :
    combinedWrittenTxtPath "out/Jean_Dupont" "Jean_Dupont"
      = "out/Jean_Dupont/Jean_Dupont_combined_analysis_analysis.txt"
    ∧ combinedWrittenJsonPath "out/Jean_Dupont" "Jean_Dupont"
      = "out/Jean_Dupont/Jean_Dupont_combined_analysis_analysis.json"
    ∧ combinedCheckTxtPath "out/Jean_Dupont" "Jean_Dupont"
      = "out/Jean_Dupont/Jean_Dupont_combined_analysis.txt"
    ∧ combinedCheckJsonPath "out/Jean_Dupont" "Jean_Dupont"
      = "out/Jean_Dupont/Jean_Dupont_combined_analysis.json"
    ∧ combinedWrittenTxtPath "out/Jean_Dupont" "Jean_Dupont"
        ≠ combinedCheckTxtPath "out/Jean_Dupont" "Jean_Dupont"
    ∧ combinedWrittenJsonPath "out/Jean_Dupont" "Jean_Dupont"
        ≠ combinedCheckJsonPath "out/Jean_Dupont" "Jean_Dupont"
    ∧ skip_combined_analysis true
        [combinedWrittenTxtPath "out/Jean_Dupont" "Jean_Dupont",
         combinedWrittenJsonPath "out/Jean_Dupont" "Jean_Dupont"]
        "out/Jean_Dupont" "Jean_Dupont" = false := by
  decide

/-- Claim C6 (counterexample): the input `member: "Jean"` contains
neither a fenced json block nor an inline JSON-object-like substring,
yet the structured-extraction fallback does not return the fixed
template with only `full_text` set — it also fills the `member` field
from the member-name pattern. -/
theorem c6_counterexample :
    hasFencedJson ("member: \"Jean\"".toList) = false
    ∧ hasInlineObj ("member: \"Jean\"".toList) = false
    ∧ extract_json_from_text (fun _ => none) "member: \"Jean\""
        = some { get_json_template with
                   member := "Jean", full_text := some "member: \"Jean\"" }
    ∧ extract_json_from_text (fun _ => none) "member: \"Jean\""
        ≠ some { get_json_template with
                   full_text := some "member: \"Jean\"" } := by
  decide

/-- Claim C7: with the `GOOGLE_API_KEY` credential absent from the
environment (and the AI client library importable), both the
single-document and the multi-document analysis orchestrators return
the fixed error string — which contains the identifiable marker
`GOOGLE_API_KEY` — and, being total string-returning functions over
every remaining outcome, do not raise. -/
theorem c7_missing_api_key_returns_error_string :
    ∀ (importErr pdf_path : String) (fe : Bool) (oe : Option String)
      (ai : Except String String) (pdf_paths : List String)
      (fem : String → Bool),
      analyze_pdf_with_gemini true importErr none pdf_path fe oe ai
        = apiKeyMissingMsg
      ∧ analyze_multiple_pdfs_together true importErr none pdf_paths fem oe ai
        = apiKeyMissingMsg
      ∧ containsSub apiKeyMissingMsg.toList "GOOGLE_API_KEY".toList = true := by
  intro importErr pdf_path fe oe ai pdf_paths fem
  exact ⟨rfl, rfl, by decide⟩

theorem processLink_downloaded_mono (se : Bool) (fok : String → Bool)
    (dir : String) (ex : List String) (st : DLState) (l : Link) (x : String)
    (hx : x ∈ st.downloaded) :
    x ∈ ((processLink se fok dir ex st l).1).downloaded := by
  unfold processLink
  cases l.href with
  | none => exact hx
  | some url =>
    dsimp only
    split
    · exact List.mem_append_left _ hx
    · dsimp only
      split
      · exact List.mem_append_left _ hx
      · exact hx

theorem runLinks_downloaded_mono (se : Bool) (fok : String → Bool)
    (dir : String) (ex : List String) (ls : List Link) :
    ∀ (st : DLState) (x : String), x ∈ st.downloaded →
      x ∈ ((runLinks se fok dir ex st ls).1).downloaded := by
  induction ls with
  | nil => intro st x hx; exact hx
  | cons l rest ih =>
    intro st x hx
    exact ih _ _ (processLink_downloaded_mono se fok dir ex st l x hx)

theorem runLinks_manifest_member (fok : String → Bool) (dir : String)
    (ex : List String) (ls : List Link) :
    ∀ (st : DLState) (l : Link), l ∈ ls → l.href.isSome = true →
      ex.contains (fileNameOf l) = true →
      fileNameOf l ∈ ((runLinks true fok dir ex st ls).1).downloaded := by
  induction ls with
  | nil => intro st l hl _ _; cases hl
  | cons a rest ih =>
    intro st l hl hsome hcont
    rcases List.mem_cons.mp hl with h | h
    · subst h
      have hstep : fileNameOf l ∈ ((processLink true fok dir ex st l).1).downloaded := by
        obtain ⟨u, hu⟩ := Option.isSome_iff_exists.mp hsome
        unfold processLink
        rw [hu]
        dsimp only
        rw [hcont]
        simp
      exact runLinks_downloaded_mono true fok dir ex rest _ _ hstep
    · exact ih _ l h hsome hcont

theorem download_pdf_ok_of_fetchOk (fok : String → Bool) (url p : String)
    (se : Bool) (fs : List String) (h : fok url = true) :
    (download_pdf fok url p se fs).ok = true := by
  unfold download_pdf
  split_ifs <;> simp_all

theorem runLinks_all_recorded (fok : String → Bool) (dir : String)
    (ex : List String) (se : Bool) (ls : List Link)
    (hfok : ∀ u, fok u = true) :
    ∀ (st : DLState) (l : Link), l ∈ ls → l.href.isSome = true →
      fileNameOf l ∈ ((runLinks se fok dir ex st ls).1).downloaded := by
  induction ls with
  | nil => intro st l hl _; cases hl
  | cons a rest ih =>
    intro st l hl hsome
    rcases List.mem_cons.mp hl with h | h
    · subst h
      have hstep : fileNameOf l ∈ ((processLink se fok dir ex st l).1).downloaded := by
        obtain ⟨u, hu⟩ := Option.isSome_iff_exists.mp hsome
        unfold processLink
        rw [hu]
        dsimp only
        split
        · simp
        · have hok := download_pdf_ok_of_fetchOk fok u
            (pathJoin dir (fileNameOf l)) se st.fs (hfok u)
          simp [hok]
      exact runLinks_downloaded_mono se fok dir ex rest _ _ hstep
    · exact ih _ l h hsome

theorem runLinks_zero_fetches (fok : String → Bool) (dir : String)
    (ex : List String) :
    ∀ (ls : List Link) (st : DLState),
      (∀ l ∈ ls, l.href = none ∨ ex.contains (fileNameOf l) = true) →
      ((runLinks true fok dir ex st ls).1).fetchCalls = st.fetchCalls := by
  intro ls
  induction ls with
  | nil => intro st _; rfl
  | cons a rest ih =>
    intro st h
    have hstep : ((processLink true fok dir ex st a).1).fetchCalls = st.fetchCalls := by
      rcases h a (List.mem_cons_self a rest) with h0 | h0
      · unfold processLink
        rw [h0]
      · cases hh : a.href with
        | none => unfold processLink; rw [hh]
        | some u =>
          unfold processLink
          rw [hh]
          dsimp only
          rw [h0]
          simp
    have hrec : ((runLinks true fok dir ex st (a :: rest)).1).fetchCalls
        = ((runLinks true fok dir ex (processLink true fok dir ex st a).1 rest).1).fetchCalls := rfl
    rw [hrec, ih _ (fun l hl => h l (List.mem_cons_of_mem a hl)), hstep]

/-- Claim C1 (amended): in `skip_existing` mode, the throttling delay
is bypassed exactly for documents skipped via the manifest check
(filename already in the loaded manifest); a document whose file merely
exists on the filesystem but is absent from the manifest goes through
`download_pdf` — which skips the fetch — and the delay still runs
after it. -/
theorem c1_delay_bypassed_iff_manifest_skip (se : Bool)
    (fok : String → Bool) (dir : String) (ex : List String)
    (st : DLState) (l : Link) (u : String) (h : l.href = some u) :
    ((processLink se fok dir ex st l).2.slept = false
      ↔ (se = true ∧ ex.contains (fileNameOf l) = true)) := by
  unfold processLink
  rw [h]
  dsimp only
  by_cases hc : ex.contains (fileNameOf l) && se
  · rw [if_pos hc]
    simp only [Bool.and_eq_true] at hc
    exact iff_of_true rfl ⟨hc.2, hc.1⟩
  · rw [if_neg hc]
    simp only [Bool.and_eq_true, not_and] at hc
    constructor
    · intro habs
      exact absurd habs (by simp)
    · intro ⟨h1, h2⟩
      exact absurd h1 (hc h2)

theorem c1_witness :
    ((processLink true (fun _ => true) "p" ["document_42_2020.pdf"]
        ⟨[], [], 0⟩ sampleLink).2.slept = false
      ↔ (true = true
          ∧ (["document_42_2020.pdf"] : List String).contains
              (fileNameOf sampleLink) = true)) :=
  c1_delay_bypassed_iff_manifest_skip true (fun _ => true) "p"
    ["document_42_2020.pdf"] ⟨[], [], 0⟩ sampleLink "http://x/a.pdf" rfl

/-- Claim C2 (amended): the manifest's document set is append-only
across crawl passes when `skip_existing` is set: if every filename of
the loaded manifest corresponds to a listed link with an href (the
person's listing is unchanged), each such filename is skipped via the
manifest check and re-recorded, so it is still present in the manifest
written at the end of the pass, regardless of network failures.  With
`skip_existing` unset the manifest is rebuilt from the pass's
successful downloads only, and a failed re-download drops the
filename (see the counterexample). -/
theorem c2_append_only_under_skip_existing (lo : Bool)
    (fok : String → Bool) (dir : String) (links : List Link)
    (docs fs0 : List String)
    (hUnchanged : ∀ f ∈ docs, ∃ l ∈ effectiveLinks lo links,
        l.href.isSome = true ∧ fileNameOf l = f) :
    ∀ f ∈ docs,
      f ∈ (processPerson lo true fok dir links (some docs) fs0).newManifest := by
  intro f hf
  obtain ⟨l, hl, hsome, hname⟩ := hUnchanged f hf
  have hcont : docs.contains (fileNameOf l) = true := by
    rw [hname]
    exact List.elem_eq_true_of_mem hf
  have hmem := runLinks_manifest_member fok dir docs (effectiveLinks lo links)
    ⟨[], fs0, 0⟩ l hl hsome hcont
  rw [← hname]
  exact hmem

theorem c2_witness :
    "document_42_2020.pdf" ∈
      (processPerson false true (fun _ => false) "p" [sampleLink]
        (some ["document_42_2020.pdf"]) []).newManifest :=
  c2_append_only_under_skip_existing false (fun _ => false) "p" [sampleLink]
    ["document_42_2020.pdf"] [] (by decide) "document_42_2020.pdf" (by decide)

/-- Claim C5 (amended): running the download/sync pass twice with
`skip_existing=true` on an unchanged listing performs zero network
fetches on the second run provided every fetch attempted in the first
run succeeded: the first run then records every listed document with an
href in the manifest, and the second run short-circuits each of them on
the manifest check.  When a first-run fetch fails, the second run
re-fetches that document (see the counterexample). -/
theorem c5_second_run_zero_fetches (lo : Bool)
    (fok1 fok2 : String → Bool) (dir : String) (links : List Link)
    (m0 : Option (List String)) (fs0 : List String)
    (hfok1 : ∀ u, fok1 u = true) :
    (processPerson lo true fok2 dir links
        (some (processPerson lo true fok1 dir links m0 fs0).newManifest)
        (processPerson lo true fok1 dir links m0 fs0).fs).fetchCalls = 0 := by
  have hAll : ∀ l ∈ effectiveLinks lo links, l.href = none ∨
      ((processPerson lo true fok1 dir links m0 fs0).newManifest).contains
        (fileNameOf l) = true := by
    intro l hl
    cases hh : l.href with
    | none => exact Or.inl rfl
    | some u =>
      refine Or.inr ?_
      have hmem : fileNameOf l ∈
          (processPerson lo true fok1 dir links m0 fs0).newManifest :=
        runLinks_all_recorded fok1 dir (loadExistingFiles true m0) true
          (effectiveLinks lo links) hfok1 ⟨[], fs0, 0⟩ l hl (by rw [hh]; rfl)
      exact List.elem_eq_true_of_mem hmem
  exact runLinks_zero_fetches fok2 dir _ (effectiveLinks lo links) _ hAll

theorem c5_witness :
    (processPerson false true (fun _ => true) "p" [sampleLink]
        (some (processPerson false true (fun _ => true) "p" [sampleLink]
          none []).newManifest)
        (processPerson false true (fun _ => true) "p" [sampleLink]
          none []).fs).fetchCalls = 0 :=
  c5_second_run_zero_fetches false (fun _ => true) (fun _ => true) "p"
    [sampleLink] none [] (fun _ => rfl)

/-- Claim C8 (amended): with `latest_only=true`, every person's link
list is truncated to its first `min 1 N` elements before any sync or
fetch decision — exactly 1 element (the first in markup order) whenever
the list is nonempty, and 0 when it is empty; the whole download pass
only ever sees the truncated list. -/
theorem c8_latest_only_truncates_take_one (links : List Link) (se : Bool)
    (fok : String → Bool) (dir : String) (m : Option (List String))
    (fs0 : List String) :
    effectiveLinks true links = links.take 1
    ∧ (effectiveLinks true links).length = min 1 links.length
    ∧ (links ≠ [] → (effectiveLinks true links).length = 1
        ∧ (effectiveLinks true links).head? = links.head?)
    ∧ processPerson true se fok dir links m fs0
        = processPerson true se fok dir (links.take 1) m fs0 := by
  refine ⟨rfl, ?_, ?_, ?_⟩
  · simp [effectiveLinks]
  · intro hne
    cases links with
    | nil => exact absurd rfl hne
    | cons a t => exact ⟨rfl, rfl⟩
  · simp [processPerson, effectiveLinks, List.take_take]

theorem c8_witness :
    (effectiveLinks true [sampleLink]).length = 1
    ∧ (effectiveLinks true [sampleLink]).head? = ([sampleLink] : List Link).head? :=
  (c8_latest_only_truncates_take_one [sampleLink] true (fun _ => true) "p"
    none []).2.2.1 (by decide)

/-- Claim C6 (amended): for every input with neither a fenced json
block nor an inline JSON-object-like substring, `extract_json_from_text`
returns (without raising, and independently of the `json.loads` oracle)
the fixed template with its `full_text` field set to the original input
and its `member` field set to the capture of the `member: "…"` name
pattern when that pattern matches somewhere in the text (the template's
empty string otherwise); all other fields keep their template values,
and the result is never `none`. -/
theorem c6_fallback_returns_template (loads : String → Option FinDecl)
    (text : String) (h1 : hasFencedJson text.toList = false)
    (h2 : hasInlineObj text.toList = false) :
    extract_json_from_text loads text
      = some { get_json_template with
                 member := memberFallback text, full_text := some text }
    ∧ (extract_json_from_text loads text).isSome = true := by
  have hmain : extract_json_from_text loads text
      = some { get_json_template with
                 member := memberFallback text, full_text := some text } := by
    unfold extract_json_from_text memberFallback
    rw [h1, h2]
    simp only [Bool.false_eq_true, if_false]
    cases hm : memberSearch text.toList with
    | none => rfl
    | some cap => rfl
  exact ⟨hmain, by rw [hmain]; rfl⟩

theorem c6_witness :
    extract_json_from_text (fun _ => none) "hello world"
      = some { get_json_template with
                 member := memberFallback "hello world",
                 full_text := some "hello world" }
    ∧ (extract_json_from_text (fun _ => none) "hello world").isSome = true :=
  c6_fallback_returns_template (fun _ => none) "hello world"
    (by decide) (by decide)

theorem analyzeLoop_saved_spec (dir : String) (analyze : String → String)
    (stf : Bool) :
    ∀ (fl : List String) (p : String), p ∈ (analyzeLoop dir analyze stf fl).2 →
      stf = true ∧ (analyze p).startsWith "Error" = false
        ∧ (analyze p).startsWith "Analysis failed" = false := by
  intro fl
  induction fl with
  | nil => intro p hp; cases hp
  | cons f rest ih =>
    intro p hp
    simp only [analyzeLoop] at hp
    rcases List.mem_append.mp hp with h | h
    · by_cases hc : (stf && !((analyze (pathJoin dir f)).startsWith "Error")
          && !((analyze (pathJoin dir f)).startsWith "Analysis failed")) = true
      · rw [if_pos hc] at h
        have hp' : p = pathJoin dir f := by simpa using h
        subst hp'
        simp only [Bool.and_eq_true, Bool.not_eq_true'] at hc
        exact ⟨hc.1.1, hc.1.2, hc.2⟩
      · rw [if_neg hc] at h
        cases h
    · exact ih p h

theorem analyzeLoop_results_spec (dir : String) (analyze : String → String)
    (stf : Bool) :
    ∀ (fl : List String) (f : String), f ∈ fl →
      (f, analyze (pathJoin dir f)) ∈ (analyzeLoop dir analyze stf fl).1 := by
  intro fl
  induction fl with
  | nil => intro f hf; cases hf
  | cons a rest ih =>
    intro f hf
    rcases List.mem_cons.mp hf with h | h
    · subst h
      exact List.mem_cons_self _ _
    · exact List.mem_cons_of_mem _ (ih f h)

/-- Claim C10: in the per-person analysis loop, `save_analysis_files`
is invoked for a PDF only when text-file saving is enabled and the
analysis result string starts with neither `"Error"` nor
`"Analysis failed"`; and every processed PDF — whether its result is an
error string or not — has its result recorded under its filename in the
returned results mapping. -/
theorem c10_saved_only_without_error_marker (dir : String)
    (pdf_files : List String) (analyze : String → String) (stf sa : Bool)
    (fs : List String) :
    (∀ p ∈ (analyze_pdfs_for_person dir pdf_files analyze stf sa fs).2,
        stf = true ∧ (analyze p).startsWith "Error" = false
          ∧ (analyze p).startsWith "Analysis failed" = false)
    ∧ (∀ f ∈ pdfsToAnalyze dir pdf_files sa fs,
        (f, analyze (pathJoin dir f))
          ∈ (analyze_pdfs_for_person dir pdf_files analyze stf sa fs).1) := by
  constructor
  · intro p hp
    exact analyzeLoop_saved_spec dir analyze stf _ p hp
  · intro f hf
    exact analyzeLoop_results_spec dir analyze stf _ f hf

theorem c10_witness :
    (("a.pdf", (fun p => if p = "d/a.pdf" then "ok" else "Error x") (pathJoin "d" "a.pdf"))
        ∈ (analyze_pdfs_for_person "d" ["a.pdf"]
            (fun p => if p = "d/a.pdf" then "ok" else "Error x") true false []).1) :=
  (c10_saved_only_without_error_marker "d" ["a.pdf"]
    (fun p => if p = "d/a.pdf" then "ok" else "Error x") true false []).2
    "a.pdf" (by decide)

end CedQc
